import Mathlib

/-!
Verification of the `dvrip` command-line front end (`src/dvrip/__main__.py`)
against its natural-language specification.

The module under study is a thin CLI over an external protocol library
(`dvrip.io`, `dvrip.errors`) and external collaborators (socket resolution,
`dateparser`, the environment).  Those collaborators are modelled as
parameters: each external call's outcome is an explicit argument of the
embedded function, and the embedding reproduces the CLI's own control flow
and formatting exactly as written in the source.
-/

namespace Dvrip

/-- Exit code for command-line usage errors (`os.EX_USAGE`). -/
def EX_USAGE : Nat := 64

/-- Exit code for host-resolution failures (`os.EX_NOHOST`). -/
def EX_NOHOST : Nat := 68

/-- Exit code for input/output errors (`os.EX_IOERR`). -/
def EX_IOERR : Nat := 74

/-- Exit code for protocol errors (`os.EX_PROTOCOL`). -/
def EX_PROTOCOL : Nat := 76

/-- Model of a Python `OSError`: the fields `ioerr` reads. -/
structure OSErrorInfo where
  filename : Option String
  strerror : String
deriving DecidableEq, Repr

/-- Model of the `DVRIPClient` handle returned by a successful `connect`.
The client's internals live in `dvrip.io`, outside this module; the CLI
only passes the handle around, so an opaque token suffices. -/
structure DVRIPClient where
  mk' ::
deriving DecidableEq, Repr

/-- Outcome of the `conn.connect((host, serv), user, password)` call inside
`connect`: success, or one of the three exception classes the CLI catches. -/
inductive ConnResult where
  | ok
  | decodeErr (msg : String)
  | requestErr (msg : String)
  | osErr (e : OSErrorInfo)
deriving DecidableEq, Repr

/-- Outcomes of the external calls made by `connect`, one field per call
site: `int(port, base=0)` (`none` models a `ValueError`),
`getservbyname(port)`, `gethostbyname(host)`, and the login attempt
`conn.connect(...)`. -/
structure ConnectCalls where
  intParse : Option Int
  servByName : Except OSErrorInfo Nat
  hostByName : Except OSErrorInfo String
  connAttempt : ConnResult
deriving Repr

/-- Embedding of `connect` (src/dvrip/__main__.py lines 39-65).  A `.error c`
result models `exit(c)` (Python `exit` raises `SystemExit`, so nothing after
the handler runs); `.ok` models returning the client. -/
def connect (c : ConnectCalls) : Except Nat DVRIPClient :=
  let servStep : Except Nat Unit :=
    match c.intParse with
    | some _ => .ok ()
    | none =>
      match c.servByName with
      | .ok _ => .ok ()
      | .error _ => .error EX_NOHOST
  match servStep with
  | .error code => .error code
  | .ok _ =>
    match c.hostByName with
    | .error _ => .error EX_NOHOST
    | .ok _ =>
      match c.connAttempt with
      | .ok => .ok ⟨⟩
      | .decodeErr _ => .error EX_PROTOCOL
      | .requestErr _ => .error 2
      | .osErr _ => .error EX_IOERR

/-- C3: a malformed login reply (`DVRIPDecodeError`) exits with
`EX_PROTOCOL` = 76, a rejected login (`DVRIPRequestError`) exits with
status 2, and the two exception kinds are never mapped to the same exit
code. -/
theorem connect_decode_vs_request_exit_codes (c : ConnectCalls) (n : Int)
    (h : String) (hint : c.intParse = some n) (hhost : c.hostByName = .ok h) :
    (∀ m, c.connAttempt = .decodeErr m → connect c = .error EX_PROTOCOL) ∧
    (∀ m, c.connAttempt = .requestErr m → connect c = .error 2) ∧
    EX_PROTOCOL = 76 ∧ EX_PROTOCOL ≠ 2 := by
  refine ⟨?_, ?_, rfl, by decide⟩ <;> intro m hconn <;>
    simp [connect, hint, hhost, hconn]

/-- Concrete instantiation of `connect_decode_vs_request_exit_codes`:
a decode error during login exits with 76. -/
theorem connect_decode_vs_request_exit_codes_witness :
    connect ⟨some 34567, .ok 34567, .ok "1.2.3.4",
             .decodeErr "bad magic"⟩ = .error EX_PROTOCOL :=
  (connect_decode_vs_request_exit_codes
      ⟨some 34567, .ok 34567, .ok "1.2.3.4", .decodeErr "bad magic"⟩
      34567 "1.2.3.4" rfl rfl).1 "bad magic" rfl

/-- C8: name-resolution and service-name-lookup failures (`OSError` from
`gethostbyname` / `getservbyname`) exit with `EX_NOHOST` = 68; a socket-level
failure during the connection attempt exits with `EX_IOERR` = 74; in every
such case `connect` does not return a client. -/
theorem connect_oserror_exit_codes (c : ConnectCalls) :
    (∀ e, c.intParse = none → c.servByName = .error e →
      connect c = .error EX_NOHOST) ∧
    (∀ n e, c.intParse = some n → c.hostByName = .error e →
      connect c = .error EX_NOHOST) ∧
    (∀ n h e, c.intParse = some n → c.hostByName = .ok h →
      c.connAttempt = .osErr e → connect c = .error EX_IOERR) ∧
    (∀ code, connect c = .error code → ∀ cl, connect c ≠ .ok cl) ∧
    EX_NOHOST = 68 ∧ EX_IOERR = 74 := by
  refine ⟨?_, ?_, ?_, ?_, rfl, rfl⟩
  · intro e hint hserv; simp [connect, hint, hserv]
  · intro n e hint hhost; simp [connect, hint, hhost]
  · intro n h e hint hhost hconn; simp [connect, hint, hhost, hconn]
  · intro code herr cl hok; rw [herr] at hok; exact Except.noConfusion hok

/-- Concrete instantiation of `connect_oserror_exit_codes`: a failed
service-name lookup exits with 68. -/
theorem connect_oserror_exit_codes_witness :
    connect ⟨none, .error ⟨none, "Servname not supported"⟩, .ok "1.2.3.4",
             .ok⟩ = .error EX_NOHOST :=
  (connect_oserror_exit_codes
      ⟨none, .error ⟨none, "Servname not supported"⟩, .ok "1.2.3.4", .ok⟩).1
    ⟨none, "Servname not supported"⟩ rfl rfl

/-- Model of a Python `datetime` value as the CLI observes it: its `tzinfo`
attribute and the string its `isoformat()` method returns (the datetime
library is external to this module). -/
structure PyDatetime where
  tzinfo : Option String
  iso : String
deriving DecidableEq, Repr

/-- One partition record of a `StorageInfo` disk, with the attributes
`run_info` reads. -/
structure Partition where
  current : Bool
  size : Int
  free : Int
  viewedstart : PyDatetime
  viewedend : PyDatetime
  unviewedstart : PyDatetime
  unviewedend : PyDatetime
deriving Repr

/-- One disk record of a `StorageInfo` response: its number, its reported
partition count `parts`, and the raw `partinfo` sequence. -/
structure Disk where
  number : Int
  parts : Nat
  partinfo : List Partition
deriving Repr

/-- Embedding of the partition-line body (src/dvrip/__main__.py lines
88-98): the `line` list built for one partition, joined by spaces when
printed. -/
def partLine (i : Nat) (part : Partition) : String :=
  let line := ["  part " ++ toString i]
  let line := if part.current then line ++ ["current"] else line
  let line := line ++
    ["size " ++ toString part.size ++ "M free " ++ toString part.free ++ "M"]
  let line := line ++
    ["viewedstart " ++ part.viewedstart.iso,
     "viewedend " ++ part.viewedend.iso,
     "unviewedstart " ++ part.unviewedstart.iso,
     "unviewedend " ++ part.unviewedend.iso]
  String.intercalate " " line

/-- Embedding of the partition loop of `run_info` (line 87):
`for i, part in zip(range(disk.parts), disk.partinfo)` — the list of
partition lines printed for one disk. -/
def diskPartLines (disk : Disk) : List String :=
  ((List.range disk.parts).zip disk.partinfo).map fun p => partLine p.1 p.2

/-- C1: the partition lines printed for a disk are bounded by the disk's
reported `parts` count, and when the raw `partinfo` sequence holds at least
`parts` records exactly `parts` lines are printed (so a disk reporting 3
partitions with 5 records in `partinfo` renders exactly 3). -/
theorem run_info_partitions_bounded (d : Disk) :
    (diskPartLines d).length ≤ d.parts ∧
    (d.parts ≤ d.partinfo.length → (diskPartLines d).length = d.parts) := by
  constructor
  · simp [diskPartLines]
  · intro h; simp [diskPartLines]; omega

/-- Concrete instantiation of `run_info_partitions_bounded`: a disk
reporting 3 partitions whose `partinfo` holds 5 records renders exactly
3 partition lines. -/
theorem run_info_partitions_bounded_witness :
    (diskPartLines
      ⟨0, 3,
        List.replicate 5
          ⟨false, 100, 50, ⟨none, "a"⟩, ⟨none, "b"⟩, ⟨none, "c"⟩,
           ⟨none, "d"⟩⟩⟩).length = 3 :=
  (run_info_partitions_bounded
      ⟨0, 3,
        List.replicate 5
          ⟨false, 100, 50, ⟨none, "a"⟩, ⟨none, "b"⟩, ⟨none, "c"⟩,
           ⟨none, "d"⟩⟩⟩).2 (by simp)

/-- One per-channel record of an `ActivityInfo` response, with the
attributes `run_info` reads. -/
structure Channel where
  bitrate : Int
  recording : Bool
deriving DecidableEq, Repr

/-- Embedding of one channel line of `run_info` (lines 103-104). -/
def channelLine (i : Nat) (chan : Channel) : String :=
  "channel " ++ toString i ++ " bitrate " ++ toString chan.bitrate ++
    "K/s" ++ (if chan.recording then " recording" else "")

/-- Embedding of the channel loop of `run_info` (line 102):
`for i, chan in zip(range(info.videoin), actv.channels)` — the list of
channel lines printed. -/
def channelLines (videoin : Nat) (channels : List Channel) : List String :=
  ((List.range videoin).zip channels).map fun p => channelLine p.1 p.2

/-- C2: at most `videoin` channel lines are printed, regardless of how many
channel records the activity sequence contains. -/
theorem run_info_channels_bounded (videoin : Nat) (channels : List Channel) :
    (channelLines videoin channels).length ≤ videoin := by
  simp [channelLines]

/-- Zero-padding to two digits, the behaviour of Python's `{:02}` format
specifier on the non-negative integers occurring here. -/
def pad2 (n : Nat) : String :=
  let s := toString n
  if s.length < 2 then "0" ++ s else s

/-- Embedding of the uptime rendering of `run_info` (lines 108-114):
`divmod` by 60 and then 24, formatted with a day part exactly when the day
count is non-zero. -/
def upField (uptime : Nat) : String :=
  let minutes := uptime
  let hours := minutes / 60
  let minutes := minutes % 60
  let days := hours / 24
  let hours := hours % 24
  if days ≠ 0 then
    "up P" ++ toString days ++ "dT" ++ pad2 hours ++ "h" ++ pad2 minutes ++ "m"
  else
    "up PT" ++ toString hours ++ "h" ++ pad2 minutes ++ "m"

/-- C9: for every non-negative uptime in minutes, the up field uses
minutes = uptime mod 60, hours = (uptime div 60) mod 24,
days = uptime div 1440, rendered with both fields two-digit padded after a
day part when days > 0, and with unpadded hours otherwise. -/
theorem run_info_uptime_format (u : Nat) :
    upField u =
      if u / 1440 ≠ 0 then
        "up P" ++ toString (u / 1440) ++ "dT" ++ pad2 (u / 60 % 24) ++ "h" ++
          pad2 (u % 60) ++ "m"
      else
        "up PT" ++ toString (u / 60 % 24) ++ "h" ++ pad2 (u % 60) ++ "m" := by
  have hdiv : u / 60 / 24 = u / 1440 := by
    rw [Nat.div_div_eq_div_mul]
  simp only [upField, hdiv]

/-- The five trigger attributes of an `ActivityInfo` triggers record, each
optional; a present integer value of 0 is falsy in Python, like absence. -/
structure Triggers where
  in_ : Option Int
  out : Option Int
  obscure : Option Int
  disconnect : Option Int
  motion : Option Int
deriving DecidableEq, Repr

/-- Python truthiness of an optional integer attribute value: `None` and 0
are falsy, everything else truthy. -/
def truthy : Option Int → Bool
  | none => false
  | some n => n != 0

/-- The attribute tuple iterated on line 116, paired with the values
`getattr` reads off the triggers record. -/
def triggerAttrs (t : Triggers) : List (String × Option Int) :=
  [("in_", t.in_), ("out", t.out), ("obscure", t.obscure),
   ("disconnect", t.disconnect), ("motion", t.motion)]

/-- Python `str.rstrip` with argument `"_"`: drop all trailing underscores. -/
def rstripUnderscore (s : String) : String :=
  String.mk (s.data.reverse.dropWhile (fun c => c = '_')).reverse

/-- Rendering of one truthy trigger attribute (line 119):
`'{} {}'.format(attr.rstrip('_'), value)`. -/
def triggerEntry (attr : String) (value : Option Int) : String :=
  rstripUnderscore attr ++ " " ++
    (match value with
     | some n => toString n
     | none => "None")

/-- Embedding of the status-line construction of `run_info` (lines
106-122): the `line` list (ISO time, up field, the word `triggers`, one
entry per truthy trigger, and `none` when nothing was appended), joined by
spaces when printed. -/
def statusLine (iso : String) (up : String) (t : Triggers) : List String :=
  let line := [iso, up, "triggers"]
  let line := (triggerAttrs t).foldl
    (fun l p => if truthy p.2 then l ++ [triggerEntry p.1 p.2] else l) line
  if line.length ≤ 3 then line ++ ["none"] else line

/-- C6: the status line lists exactly the truthy trigger attributes, each
rendered as its name with trailing underscores stripped followed by its
value, and appends the single word `none` after `triggers` exactly when all
five are absent or falsy. -/
theorem run_info_triggers (iso up : String) (t : Triggers) :
    statusLine iso up t =
      [iso, up, "triggers"] ++
        (let entries := ((triggerAttrs t).filter fun p => truthy p.2).map
          fun p => triggerEntry p.1 p.2
         if entries.isEmpty then ["none"] else entries) := by
  by_cases h1 : truthy t.in_ <;> by_cases h2 : truthy t.out <;>
    by_cases h3 : truthy t.obscure <;> by_cases h4 : truthy t.disconnect <;>
    by_cases h5 : truthy t.motion <;>
    simp [statusLine, triggerAttrs, h1, h2, h3, h4, h5]

/-- The protocol request `run_time` issues: `conn.time()` (get) or
`conn.time(t)` (set). -/
inductive TimeReq where
  | get
  | set (t : PyDatetime)
deriving DecidableEq, Repr

/-- Truth of `time.tzinfo is not None` on the result of `dateparse`
(only evaluated when the result is not `None`). -/
def tzAware : Option PyDatetime → Bool
  | none => false
  | some t => t.tzinfo.isSome

/-- Embedding of `run_time` (src/dvrip/__main__.py lines 125-133).
External collaborators are parameters: `dateparse` is `dateparser.parse`,
`getTime` the device's reply to `conn.time()`, and `setTime` its reply to
`conn.time(t)`.  `.error c` models `exit(c)`; `.ok (req, s)` models issuing
request `req` and printing `s`. -/
def run_time (dateparse : String → Option PyDatetime)
    (getTime : PyDatetime) (setTime : PyDatetime → PyDatetime)
    (args : List String) : Except Nat (TimeReq × String) :=
  let time := dateparse (match args with | a :: _ => a | [] => "1970-01-01")
  if 2 < args.length || time.isNone || tzAware time then
    .error EX_USAGE
  else
    match args, time with
    | [], _ => .ok (.get, getTime.iso)
    | _ :: _, some t => .ok (.set t, (setTime t).iso)
    | _ :: _, none => .error EX_USAGE

/-- A concrete stand-in for `dateparser.parse` covering the date literals
used in examples: both parse to timezone-naive datetimes, everything else
fails. -/
def dpEx : String → Option PyDatetime := fun s =>
  if s = "1970-01-01" then some ⟨none, "1970-01-01T00:00:00"⟩
  else if s = "2024-01-01" then some ⟨none, "2024-01-01T00:00:00"⟩
  else none

/-- A concrete device clock reading for examples. -/
def getTimeEx : PyDatetime := ⟨none, "2024-06-01T12:00:00"⟩

/-- A concrete device set-time reply for examples: the device echoes the
applied value. -/
def setTimeEx : PyDatetime → PyDatetime := fun t => t

/-- C5 counterexample: with three arguments whose first parses as a
timezone-naive datetime, `run_time` exits with `EX_USAGE` instead of
issuing set-time with the parsed value, refuting the claim that a
successfully parsed naive argument always leads to a set-time request. -/
theorem run_time_three_args_counterexample :
    dpEx "2024-01-01" = some ⟨none, "2024-01-01T00:00:00"⟩ ∧
    run_time dpEx getTimeEx setTimeEx ["2024-01-01", "x", "y"] =
      .error EX_USAGE := by
  constructor <;> rfl

/-- C5 (amended): `run_time` exits with `EX_USAGE` whenever the supplied
time argument fails to parse or parses as timezone-aware, and also whenever
more than two arguments are given; otherwise with one or two arguments it
issues set-time with the value parsed from the first and prints the
returned time's ISO format, and with no arguments it issues get-time and
prints the returned time's ISO format. -/
theorem run_time_behaviour (dp : String → Option PyDatetime)
    (gt : PyDatetime) (st : PyDatetime → PyDatetime) :
    (∀ a rest, dp a = none ∨ tzAware (dp a) →
      run_time dp gt st (a :: rest) = .error EX_USAGE) ∧
    (∀ args, 2 < args.length → run_time dp gt st args = .error EX_USAGE) ∧
    (∀ a b t, dp a = some t → t.tzinfo = none →
      run_time dp gt st [a] = .ok (.set t, (st t).iso) ∧
      run_time dp gt st [a, b] = .ok (.set t, (st t).iso)) ∧
    (∀ t, dp "1970-01-01" = some t → t.tzinfo = none →
      run_time dp gt st [] = .ok (.get, gt.iso)) := by
  refine ⟨?_, ?_, ?_, ?_⟩
  · rintro a rest (h | h) <;> simp [run_time, h]
  · intro args hlen
    match args with
    | a :: rest =>
      simp only [List.length_cons] at hlen
      simp [run_time]
      omega
    | [] => simp at hlen
  · intro a b t h htz
    constructor <;> simp [run_time, h, tzAware, htz]
  · intro t h htz
    simp [run_time, h, tzAware, htz]

/-- Concrete instantiation of `run_time_behaviour`: one naive argument
issues set-time with the parsed value and prints its ISO form. -/
theorem run_time_behaviour_witness :
    run_time dpEx getTimeEx setTimeEx ["2024-01-01"] =
      .ok (.set ⟨none, "2024-01-01T00:00:00"⟩, "2024-01-01T00:00:00") :=
  ((run_time_behaviour dpEx getTimeEx setTimeEx).2.2.1 "2024-01-01" "x"
      ⟨none, "2024-01-01T00:00:00"⟩ rfl rfl).1

/-- C10: `run_time` uses only its first positional argument: with no
arguments it never issues set-time; a second argument is silently ignored
(the result with two arguments equals the result with the first alone);
three or more arguments exit with `EX_USAGE`. -/
theorem run_time_arg_usage (dp : String → Option PyDatetime)
    (gt : PyDatetime) (st : PyDatetime → PyDatetime) :
    (∀ t s, run_time dp gt st [] ≠ .ok (.set t, s)) ∧
    (∀ a b, run_time dp gt st [a, b] = run_time dp gt st [a]) ∧
    (∀ args, 2 < args.length → run_time dp gt st args = .error EX_USAGE) := by
  refine ⟨?_, ?_, ?_⟩
  · intro t s
    simp only [run_time]
    split <;> simp
  · intro a b
    cases h : dp a <;> simp [run_time, h]
  · intro args hlen
    match args with
    | a :: rest =>
      simp only [List.length_cons] at hlen
      simp [run_time]
      omega
    | [] => simp at hlen

/-- Concrete instantiation of `run_time_arg_usage`: three arguments exit
with `EX_USAGE`. -/
theorem run_time_arg_usage_witness :
    run_time dpEx getTimeEx setTimeEx ["2024-01-01", "x", "y"] =
      .error EX_USAGE :=
  (run_time_arg_usage dpEx getTimeEx setTimeEx).2.2
    ["2024-01-01", "x", "y"] (by decide)

/-- The last argument supplied for option `name`, or `dflt` when the option
never occurs — the value a Python `for opt, arg in opts` assignment loop
leaves behind. -/
def lastOptArg (opts : List (String × String)) (name : String)
    (dflt : String) : String :=
  opts.foldl (fun acc p => if p.1 = name then p.2 else acc) dflt

/-- Embedding of the option loop of `run` (lines 156-164): each `-p` sets
the port, each `-u` sets the username, and `-h` exits (status 0 when it is
the only option, `EX_USAGE` otherwise).  `n` is the length of the full
option list, tested by `len(opts) != 1`. -/
def optLoop (n : Nat) : List (String × String) → String → String →
    Except Nat (String × String)
  | [], port, user => .ok (port, user)
  | p :: rest, port, user =>
    let port := if p.1 = "-p" then p.2 else port
    let user := if p.1 = "-u" then p.2 else user
    if p.1 = "-h" then .error (if n ≠ 1 then EX_USAGE else 0)
    else optLoop n rest port user

/-- Embedding of the port/username configuration of `run` (lines 154-164):
defaults are `environ.get('DVR_PORT', '34567')` and
`environ.get('DVR_USERNAME', 'admin')`, then the option loop runs.
`envPort` and `envUser` are the environment lookups' results. -/
def resolvePortUser (envPort envUser : Option String)
    (opts : List (String × String)) : Except Nat (String × String) :=
  optLoop opts.length opts (envPort.getD "34567") (envUser.getD "admin")

/-- Helper for C7: on an option list without `-h`, the loop returns the
last `-p` and `-u` arguments over the given initial values. -/
theorem optLoop_no_help (n : Nat) (opts : List (String × String))
    (port user : String) (h : ∀ p ∈ opts, p.1 ≠ "-h") :
    optLoop n opts port user =
      .ok (lastOptArg opts "-p" port, lastOptArg opts "-u" user) := by
  induction opts generalizing port user with
  | nil => rfl
  | cons p rest ih =>
    have hp : p.1 ≠ "-h" := h p (List.mem_cons_self p rest)
    have hrest : ∀ q ∈ rest, q.1 ≠ "-h" :=
      fun q hq => h q (List.mem_cons_of_mem p hq)
    simp only [optLoop, lastOptArg, List.foldl_cons, if_neg hp]
    exact ih _ _ hrest

/-- C7: the port defaults to the `DVR_PORT` environment variable (falling
back to `34567`) and the username to `DVR_USERNAME` (falling back to
`admin`), and each is overridden by a `-p` or `-u` option when given. -/
theorem run_port_user_defaults (envPort envUser : Option String)
    (opts : List (String × String)) (h : ∀ p ∈ opts, p.1 ≠ "-h") :
    resolvePortUser envPort envUser opts =
      .ok (lastOptArg opts "-p" (envPort.getD "34567"),
           lastOptArg opts "-u" (envUser.getD "admin")) :=
  optLoop_no_help opts.length opts _ _ h

/-- Concrete instantiation of `run_port_user_defaults`: with `DVR_PORT`
unset, `DVR_USERNAME` set to `alice`, and a `-p 80` option, the port is
`80` and the username `alice`; with no options and no environment, the
defaults `34567` and `admin` stand. -/
theorem run_port_user_defaults_witness :
    resolvePortUser none (some "alice") [("-p", "80")] =
        .ok ("80", "alice") ∧
    resolvePortUser none none [] = .ok ("34567", "admin") :=
  ⟨by
    have h := run_port_user_defaults none (some "alice") [("-p", "80")]
      (by decide)
    simpa [lastOptArg] using h,
   by
    have h := run_port_user_defaults none none [] (by simp)
    simpa [lastOptArg] using h⟩

/-- The observable steps of `run`'s command dispatch. -/
inductive Action where
  | connectAct
  | rebootAct
  | infoAct
  | timeAct
  | logoutAct
deriving DecidableEq, Repr

/-- How a command handler (`run_info` / `run_time`) finishes: normally, by
raising an exception, or by calling `exit` (which raises `SystemExit` — in
Python both kinds of raise still run `finally` blocks). -/
inductive HandlerOutcome where
  | normal
  | raises (e : String)
  | exits (code : Nat)
deriving DecidableEq, Repr

/-- The final fate of one `run` invocation past the dispatch. -/
inductive RunResult where
  | done
  | exited (code : Nat)
  | raised (e : String)
deriving DecidableEq, Repr

/-- Propagation of a handler outcome once the `finally` block has run. -/
def HandlerOutcome.propagate : HandlerOutcome → RunResult
  | .normal => .done
  | .raises e => .raised e
  | .exits code => .exited code

/-- Embedding of the command dispatch of `run` (lines 173-189):
`connect` first (its `exit` propagates before any `try` is entered), then
the handler under `try ... finally: conn.logout()` for `info` and `time`,
a bare `conn.reboot()` for `reboot`, and `usage()` otherwise.  Returns the
trace of actions performed and the invocation's fate. -/
def dispatch (command : String) (connectResult : Except Nat DVRIPClient)
    (outcome : HandlerOutcome) : List Action × RunResult :=
  if command = "reboot" then
    match connectResult with
    | .error code => ([.connectAct], .exited code)
    | .ok _ => ([.connectAct, .rebootAct], .done)
  else if command = "info" then
    match connectResult with
    | .error code => ([.connectAct], .exited code)
    | .ok _ => ([.connectAct, .infoAct, .logoutAct], outcome.propagate)
  else if command = "time" then
    match connectResult with
    | .error code => ([.connectAct], .exited code)
    | .ok _ => ([.connectAct, .timeAct, .logoutAct], outcome.propagate)
  else
    ([], .exited EX_USAGE)

/-- C4: for the `info` and `time` commands, once `connect` has returned a
client, `logout` appears in the trace whatever the handler's outcome —
normal return, raised exception, or `exit` — so session teardown is always
reached. -/
theorem run_logout_always (command : String)
    (connectResult : Except Nat DVRIPClient) (outcome : HandlerOutcome)
    (hcmd : command = "info" ∨ command = "time")
    (cl : DVRIPClient) (hconn : connectResult = .ok cl) :
    Action.logoutAct ∈ (dispatch command connectResult outcome).1 := by
  rcases hcmd with h | h <;> subst h <;> subst hconn <;>
    simp [dispatch]

/-- Concrete instantiation of `run_logout_always`: an `info` run whose
handler raises still performs `logout`. -/
theorem run_logout_always_witness :
    Action.logoutAct ∈
      (dispatch "info" (.ok ⟨⟩) (.raises "AttributeError")).1 :=
  run_logout_always "info" (.ok ⟨⟩) (.raises "AttributeError")
    (Or.inl rfl) ⟨⟩ rfl

end Dvrip
